import Mathlib

/-!
Shallow embedding of `src/okta/factor.rs` from skeptomai/crowbar: the Okta
MFA factor model, its serde decoding/encoding behaviour, Display formatting,
hypermedia link resolution, and the `Factor::verify` dispatcher.

JSON values are modelled by an explicit inductive; serde derive behaviour
(internally tagged enums, untagged enums, camelCase renames,
`skip_serializing_if`) is translated field by field from the attributes in
the source. Panics (`.unwrap()` on `None`) are modelled by a distinct
`crash` outcome; the network call itself is modelled as a `request` outcome
carrying the URL and serialized body, since the dispatcher's behaviour up to
the point of sending is what the claims are about.
-/

namespace Crowbar

/-- A JSON value, sufficient for the payloads of this module: strings,
null, arrays and objects (an object is an ordered list of key/value pairs,
as produced by a serializer). -/
inductive JsonValue where
  | jstr (s : String)
  | jnull
  | jarr (items : List JsonValue)
  | jobj (fields : List (String × JsonValue))

/-- First-match association-list lookup, modelling `HashMap::get` on maps
with unique keys and serde's field lookup on JSON objects. -/
def alookup {α : Type} : List (String × α) → String → Option α
  | [], _ => none
  | (k, v) :: rest, key => if k = key then some v else alookup rest key

/-- Modelled from the spec: the `Link` payload held by an `OktaLinks` value
(defined in `okta/mod.rs`, outside the available sources); the spec's §3
describes it as carrying an href. Only the `href` field is used by
`Factor::verify`. -/
structure Link where
  href : String
deriving DecidableEq

/-- Modelled from the spec: `OktaLinks` (defined in `okta/mod.rs`, outside
the available sources) is, per spec §3, polymorphic over
`\x7bSingle(href), Multi(ordered sequence of hrefs)\x7d`. The `Single` and
`Multi` constructors are the ones imported and matched in `factor.rs`. -/
inductive OktaLinks where
  | single (link : Link)
  | multi (links : List Link)
deriving DecidableEq

/-- `FactorProvider` from `factor.rs` lines 90–99. -/
inductive FactorProvider where
  | okta
  | rsa
  | symantec
  | google
  | duo
  | yubico
deriving DecidableEq

/-- `FactorStatus` from `factor.rs` lines 101–110. -/
inductive FactorStatus where
  | notSetup
  | pendingActivation
  | enrolled
  | active
  | inactive
  | expired
deriving DecidableEq

/-- `FactorVerification` from `factor.rs` lines 112–117. -/
structure FactorVerification where
  pass_code : String
  next_pass_code : Option String
deriving DecidableEq

/-- `SmsFactorProfile` from `factor.rs` lines 119–123. -/
structure SmsFactorProfile where
  phone_number : String
deriving DecidableEq

/-- `CallFactorProfile` from `factor.rs` lines 125–130. -/
structure CallFactorProfile where
  phone_number : String
  phone_extension : Option String
deriving DecidableEq

/-- `QuestionFactorProfile` from `factor.rs` lines 132–138: a question
code, the human-readable question text, and an optional answer. -/
structure QuestionFactorProfile where
  question : String
  question_text : String
  answer : Option String
deriving DecidableEq

/-- `TokenFactorProfile` from `factor.rs` lines 140–144. -/
structure TokenFactorProfile where
  credential_id : String
deriving DecidableEq

/-- `WebFactorProfile` from `factor.rs` lines 146–150. -/
structure WebFactorProfile where
  credential_id : String
deriving DecidableEq

/-- The `Factor` enum from `factor.rs` lines 12–88. The `_links` map is an
association list with unique keys, standing in for
`HashMap<String, OktaLinks>`. -/
inductive Factor where
  | push (id : String) (provider : FactorProvider) (status : Option FactorStatus)
      (links : List (String × OktaLinks))
  | sms (id : String) (provider : FactorProvider) (status : Option FactorStatus)
      (profile : SmsFactorProfile) (links : List (String × OktaLinks))
  | call (id : String) (provider : FactorProvider) (status : Option FactorStatus)
      (profile : CallFactorProfile) (links : List (String × OktaLinks))
  | token (id : String) (provider : FactorProvider) (status : Option FactorStatus)
      (profile : TokenFactorProfile) (links : List (String × OktaLinks))
      (verify : Option FactorVerification)
  | totp (id : String) (provider : FactorProvider) (status : Option FactorStatus)
      (profile : TokenFactorProfile) (links : List (String × OktaLinks))
  | hotp (id : String) (provider : FactorProvider) (status : Option FactorStatus)
      (profile : TokenFactorProfile) (links : List (String × OktaLinks))
      (verify : Option FactorVerification)
  | question (id : String) (provider : FactorProvider) (status : Option FactorStatus)
      (profile : QuestionFactorProfile) (links : List (String × OktaLinks))
  | web (id : String) (provider : FactorProvider) (status : Option FactorStatus)
      (profile : WebFactorProfile) (links : List (String × OktaLinks))
deriving DecidableEq

/-- `FactorVerificationRequest` from `factor.rs` lines 152–169, in source
declaration order (which is the untagged deserialization trial order). -/
inductive FactorVerificationRequest where
  | question (answer : String)
  | sms (state_token : String) (pass_code : Option String)
  | call (pass_code : Option String)
  | totp (pass_code : String)
  | token (pass_code : String)
deriving DecidableEq

/-- The `fmt::Display` impl for `Factor`, `factor.rs` lines 171–184,
translated write-arm by write-arm. Note the `Question` arm formats
`profile.question` (the question code), not `profile.question_text`. -/
def Factor.display : Factor → String
  | .push _ _ _ _ => "Okta Verify Push"
  | .sms _ _ _ profile _ => "Okta SMS to " ++ profile.phone_number
  | .call _ _ _ profile _ => "Okta Call to " ++ profile.phone_number
  | .token _ _ _ _ _ _ => "Okta One-time Password"
  | .totp _ _ _ _ _ => "Okta Time-based One-time Password"
  | .hotp _ _ _ _ _ _ => "Okta Hardware One-time Password"
  | .question _ _ _ profile _ => "Question: " ++ profile.question
  | .web _ _ _ _ _ => "Okta Web"

/-- Serde `Serialize` for `FactorVerificationRequest` (untagged, camelCase
field renames). `Sms.pass_code` carries `skip_serializing_if =
Option.is_none`, so a `none` pass code is omitted there; `Call.pass_code`
has no such attribute, so a `none` pass code serializes as JSON `null`. -/
def encodeRequest : FactorVerificationRequest → JsonValue
  | .question answer => .jobj [("answer", .jstr answer)]
  | .sms state_token pass_code =>
      .jobj (("stateToken", .jstr state_token) ::
        (match pass_code with
         | none => []
         | some p => [("passCode", .jstr p)]))
  | .call pass_code =>
      .jobj [("passCode",
        match pass_code with
        | none => .jnull
        | some p => .jstr p)]
  | .totp pass_code => .jobj [("passCode", .jstr pass_code)]
  | .token pass_code => .jobj [("passCode", .jstr pass_code)]

/-- The URL computation inlined in the `Sms` arm of `Factor::verify`
(`factor.rs` lines 192–195): `links.get("verify").unwrap()` then match
Single/Multi with `links.first().unwrap()`. A `none` result models the
panic of an `.unwrap()` on `None` (missing relation, or empty `Multi`). -/
def resolveVerifyUrl (links : List (String × OktaLinks)) : Option String :=
  match alookup links "verify" with
  | none => none
  | some (.single link) => some link.href
  | some (.multi ls) =>
      match ls with
      | [] => none
      | link :: _ => some link.href

/-- The observable outcome of a call to `Factor::verify`, up to the point
where control leaves this module: a panic (`.unwrap()` on `None`), an
attempted network POST with a resolved URL and serialized JSON body, or an
error returned via `bail!`. -/
inductive VerifyOutcome where
  | crash
  | request (url : String) (body : JsonValue)
  | unsupportedError (msg : String)

/-- `Factor::verify`, `factor.rs` lines 187–215. The `Sms` arm resolves the
verify URL (panicking where the source unwraps) and posts the serialized
request; every other arm is the `_ => bail!("Unsupported MFA method")`
catch-all. No arm inspects the shape of `request`. -/
def Factor.verify (f : Factor) (request : FactorVerificationRequest) : VerifyOutcome :=
  match f with
  | .sms _ _ _ _ links =>
      match resolveVerifyUrl links with
      | some url => .request url (encodeRequest request)
      | none => .crash
  | _ => .unsupportedError "Unsupported MFA method"

/-- Whether a factor is the `Sms` variant (the only variant with an
implemented verification path). -/
def Factor.isSms : Factor → Bool
  | .sms _ _ _ _ _ => true
  | _ => false

/-- Required string field: serde fails the containing struct if the field
is absent or not a string. -/
def reqStr (fields : List (String × JsonValue)) (name : String) : Option String :=
  match alookup fields name with
  | some (.jstr s) => some s
  | _ => none

/-- Optional string field (`Option<String>`): absent or `null` decodes to
`none`, a string decodes to `some`, any other value fails the struct. -/
def optStr (fields : List (String × JsonValue)) (name : String) :
    Option (Option String) :=
  match alookup fields name with
  | none => some none
  | some .jnull => some none
  | some (.jstr s) => some (some s)
  | some _ => none

/-- Serde `Deserialize` for `FactorProvider` (SCREAMING_SNAKE_CASE variant
names, `factor.rs` lines 90–99). -/
def decodeProvider : JsonValue → Option FactorProvider
  | .jstr "OKTA" => some .okta
  | .jstr "RSA" => some .rsa
  | .jstr "SYMANTEC" => some .symantec
  | .jstr "GOOGLE" => some .google
  | .jstr "DUO" => some .duo
  | .jstr "YUBICO" => some .yubico
  | _ => none

/-- Serde `Deserialize` for `FactorStatus` (SCREAMING_SNAKE_CASE variant
names, `factor.rs` lines 101–110). -/
def decodeStatus : JsonValue → Option FactorStatus
  | .jstr "NOT_SETUP" => some .notSetup
  | .jstr "PENDING_ACTIVATION" => some .pendingActivation
  | .jstr "ENROLLED" => some .enrolled
  | .jstr "ACTIVE" => some .active
  | .jstr "INACTIVE" => some .inactive
  | .jstr "EXPIRED" => some .expired
  | _ => none

/-- Optional `status` field (`Option<FactorStatus>`): absent or `null` is
`none`, otherwise the value must decode as a status. -/
def optStatus (fields : List (String × JsonValue)) :
    Option (Option FactorStatus) :=
  match alookup fields "status" with
  | none => some none
  | some .jnull => some none
  | some v => (decodeStatus v).map some

/-- Modelled from the spec: deserialization of one `OktaLinks` value
(`okta/mod.rs` is outside the available sources). Per spec §3 a relation
resolves to either a single link or an ordered collection of links, so a
JSON object carrying an `href` decodes as `Single` and a JSON array of
such objects decodes as `Multi`. This helper decodes one link object. -/
def decodeLink : JsonValue → Option Link
  | .jobj fields => (reqStr fields "href").map (fun h => ⟨h⟩)
  | _ => none

/-- Modelled from the spec: deserialization of one `OktaLinks` value, an
object being `Single` and an array of link objects being `Multi`. -/
def decodeOktaLinks : JsonValue → Option OktaLinks
  | .jobj fields => (reqStr fields "href").map (fun h => .single ⟨h⟩)
  | .jarr items => (items.mapM decodeLink).map .multi
  | _ => none

/-- Decode the `_links` object: each entry maps a relation name to an
`OktaLinks` value. -/
def decodeLinksMap (fields : List (String × JsonValue)) :
    Option (List (String × OktaLinks)) :=
  match alookup fields "_links" with
  | some (.jobj entries) =>
      entries.mapM (fun entry => (decodeOktaLinks entry.2).map (fun l => (entry.1, l)))
  | _ => none

/-- Serde `Deserialize` for `FactorVerification` (camelCase, `factor.rs`
lines 112–117): required `passCode`, optional `nextPassCode`. -/
def decodeFactorVerification : JsonValue → Option FactorVerification
  | .jobj fields => do
      let p ← reqStr fields "passCode"
      let n ← optStr fields "nextPassCode"
      return ⟨p, n⟩
  | _ => none

/-- Optional `verify` field (`Option<FactorVerification>`): absent or
`null` is `none`, otherwise the value must decode. -/
def optVerification (fields : List (String × JsonValue)) :
    Option (Option FactorVerification) :=
  match alookup fields "verify" with
  | none => some none
  | some .jnull => some none
  | some v => (decodeFactorVerification v).map some

/-- Serde `Deserialize` for `SmsFactorProfile` (camelCase). -/
def decodeSmsProfile : JsonValue → Option SmsFactorProfile
  | .jobj fields => (reqStr fields "phoneNumber").map (fun p => ⟨p⟩)
  | _ => none

/-- Serde `Deserialize` for `CallFactorProfile` (camelCase). -/
def decodeCallProfile : JsonValue → Option CallFactorProfile
  | .jobj fields => do
      let p ← reqStr fields "phoneNumber"
      let e ← optStr fields "phoneExtension"
      return ⟨p, e⟩
  | _ => none

/-- Serde `Deserialize` for `QuestionFactorProfile` (camelCase). -/
def decodeQuestionProfile : JsonValue → Option QuestionFactorProfile
  | .jobj fields => do
      let q ← reqStr fields "question"
      let t ← reqStr fields "questionText"
      let a ← optStr fields "answer"
      return ⟨q, t, a⟩
  | _ => none

/-- Serde `Deserialize` for `TokenFactorProfile` (camelCase). -/
def decodeTokenProfile : JsonValue → Option TokenFactorProfile
  | .jobj fields => (reqStr fields "credentialId").map (fun c => ⟨c⟩)
  | _ => none

/-- Serde `Deserialize` for `WebFactorProfile` (camelCase). -/
def decodeWebProfile : JsonValue → Option WebFactorProfile
  | .jobj fields => (reqStr fields "credentialId").map (fun c => ⟨c⟩)
  | _ => none

/-- The common per-variant fields `id`, `provider`, `status`, `_links`. -/
def decodeCommon (fields : List (String × JsonValue)) :
    Option (String × FactorProvider × Option FactorStatus × List (String × OktaLinks)) := do
  let id ← reqStr fields "id"
  let prov ← alookup fields "provider" >>= decodeProvider
  let st ← optStatus fields
  let links ← decodeLinksMap fields
  return (id, prov, st, links)

/-- The raw `factorType` discriminator tokens the `Factor` enum accepts
(`factor.rs` lines 12–88: `rename_all = "lowercase"` plus the explicit
renames `token`, `token:software:totp`, `token:hardware`). -/
def knownFactorTokens : List String :=
  ["push", "sms", "call", "token", "token:software:totp", "token:hardware",
   "question", "web"]

/-- Variant-content deserialization of the internally tagged `Factor` enum,
given the already-extracted `factorType` tag: each known token selects
exactly one variant and decodes its declared fields from the same object;
any other token is an unknown-variant decode error (`none`). -/
def decodeFactorTagged (t : String) (fields : List (String × JsonValue)) :
    Option Factor :=
  if t = "push" then
    (decodeCommon fields).map (fun c => .push c.1 c.2.1 c.2.2.1 c.2.2.2)
  else if t = "sms" then do
    let c ← decodeCommon fields
    let profile ← alookup fields "profile" >>= decodeSmsProfile
    return .sms c.1 c.2.1 c.2.2.1 profile c.2.2.2
  else if t = "call" then do
    let c ← decodeCommon fields
    let profile ← alookup fields "profile" >>= decodeCallProfile
    return .call c.1 c.2.1 c.2.2.1 profile c.2.2.2
  else if t = "token" then do
    let c ← decodeCommon fields
    let profile ← alookup fields "profile" >>= decodeTokenProfile
    let v ← optVerification fields
    return .token c.1 c.2.1 c.2.2.1 profile c.2.2.2 v
  else if t = "token:software:totp" then do
    let c ← decodeCommon fields
    let profile ← alookup fields "profile" >>= decodeTokenProfile
    return .totp c.1 c.2.1 c.2.2.1 profile c.2.2.2
  else if t = "token:hardware" then do
    let c ← decodeCommon fields
    let profile ← alookup fields "profile" >>= decodeTokenProfile
    let v ← optVerification fields
    return .hotp c.1 c.2.1 c.2.2.1 profile c.2.2.2 v
  else if t = "question" then do
    let c ← decodeCommon fields
    let profile ← alookup fields "profile" >>= decodeQuestionProfile
    return .question c.1 c.2.1 c.2.2.1 profile c.2.2.2
  else if t = "web" then do
    let c ← decodeCommon fields
    let profile ← alookup fields "profile" >>= decodeWebProfile
    return .web c.1 c.2.1 c.2.2.1 profile c.2.2.2
  else
    none

/-- Serde `Deserialize` for the internally tagged `Factor` enum
(`tag = "factorType"`): the payload must be an object, the tag must be
present as a string, and the variant content is decoded from the same
object. -/
def decodeFactor : JsonValue → Option Factor
  | .jobj fields =>
      match alookup fields "factorType" with
      | some (.jstr t) => decodeFactorTagged t fields
      | _ => none
  | _ => none

/-- Per-variant deserialization attempt for the untagged
`FactorVerificationRequest::Question` shape: required `answer`. -/
def decodeReqQuestion (fields : List (String × JsonValue)) :
    Option FactorVerificationRequest :=
  (reqStr fields "answer").map .question

/-- Untagged attempt for `FactorVerificationRequest::Sms`: required
`stateToken`, optional `passCode`. -/
def decodeReqSms (fields : List (String × JsonValue)) :
    Option FactorVerificationRequest := do
  let st ← reqStr fields "stateToken"
  let pc ← optStr fields "passCode"
  return .sms st pc

/-- Untagged attempt for `FactorVerificationRequest::Call`: optional
`passCode` only. -/
def decodeReqCall (fields : List (String × JsonValue)) :
    Option FactorVerificationRequest :=
  (optStr fields "passCode").map .call

/-- Untagged attempt for `FactorVerificationRequest::Totp`: required
`passCode`. -/
def decodeReqTotp (fields : List (String × JsonValue)) :
    Option FactorVerificationRequest :=
  (reqStr fields "passCode").map .totp

/-- Untagged attempt for `FactorVerificationRequest::Token`: required
`passCode`. -/
def decodeReqToken (fields : List (String × JsonValue)) :
    Option FactorVerificationRequest :=
  (reqStr fields "passCode").map .token

/-- Serde `Deserialize` for the `#[serde(untagged)]` enum
`FactorVerificationRequest`: each variant is tried in declaration order
(Question, Sms, Call, Totp, Token) and the first success wins. -/
def decodeRequest : JsonValue → Option FactorVerificationRequest
  | .jobj fields =>
      (decodeReqQuestion fields).orElse (fun _ =>
      (decodeReqSms fields).orElse (fun _ =>
      (decodeReqCall fields).orElse (fun _ =>
      (decodeReqTotp fields).orElse (fun _ =>
      decodeReqToken fields))))
  | _ => none

/-- Whether a serialized JSON object carries the given key. -/
def objHasKey : JsonValue → String → Bool
  | .jobj fields, key => (alookup fields key).isSome
  | _, _ => false

/-- A factor whose secret-bearing fields are normalized: `answer` and the
embedded `verify` state are dropped, credential identifiers are blanked.
Two factors agree under this map exactly when they differ only in answer,
embedded pass codes, or credential identifiers. -/
def Factor.scrubSecrets : Factor → Factor
  | .question id p s profile links =>
      .question id p s ⟨profile.question, profile.question_text, none⟩ links
  | .token id p s _ links _ => .token id p s ⟨""⟩ links none
  | .hotp id p s _ links _ => .hotp id p s ⟨""⟩ links none
  | .totp id p s _ links => .totp id p s ⟨""⟩ links
  | .web id p s _ links => .web id p s ⟨""⟩ links
  | f => f

/-- An Sms factor with a resolvable single verify link. -/
def exSmsFactor : Factor :=
  .sms "smsid" .okta (some .active) ⟨"+15551234567"⟩
    [("verify", .single ⟨"https://okta.example/verify"⟩)]

/-- An Sms factor whose verify relation maps to an empty Multi collection. -/
def exSmsFactorEmptyMulti : Factor :=
  .sms "smsid" .okta none ⟨"+15551234567"⟩ [("verify", .multi [])]

/-- A Question factor whose profile distinguishes the question code from
the human-readable question text. -/
def exQuestionFactor : Factor :=
  .question "qid" .okta none
    ⟨"disliked_food", "What is the food you least liked as a child?", none⟩ []

/-- A well-formed wire payload for each known `factorType` token. -/
def pushPayload : JsonValue := .jobj [
  ("factorType", .jstr "push"),
  ("id", .jstr "opf1"),
  ("provider", .jstr "OKTA"),
  ("status", .jstr "ACTIVE"),
  ("_links", .jobj [("verify", .jobj [("href", .jstr "https://okta.example/push")])])]

/-- A well-formed `sms` payload. -/
def smsPayload : JsonValue := .jobj [
  ("factorType", .jstr "sms"),
  ("id", .jstr "sms1"),
  ("provider", .jstr "OKTA"),
  ("status", .jstr "ACTIVE"),
  ("profile", .jobj [("phoneNumber", .jstr "+15551234567")]),
  ("_links", .jobj [("verify", .jobj [("href", .jstr "https://okta.example/sms")])])]

/-- A well-formed `call` payload. -/
def callPayload : JsonValue := .jobj [
  ("factorType", .jstr "call"),
  ("id", .jstr "clf1"),
  ("provider", .jstr "OKTA"),
  ("status", .jstr "ENROLLED"),
  ("profile", .jobj [("phoneNumber", .jstr "+15550001111"),
                     ("phoneExtension", .jstr "12")]),
  ("_links", .jobj [("verify", .jobj [("href", .jstr "https://okta.example/call")])])]

/-- A well-formed `token` payload, with embedded verification state. -/
def tokenPayload : JsonValue := .jobj [
  ("factorType", .jstr "token"),
  ("id", .jstr "tkn1"),
  ("provider", .jstr "RSA"),
  ("status", .jstr "ACTIVE"),
  ("profile", .jobj [("credentialId", .jstr "cred-token")]),
  ("_links", .jobj [("verify", .jobj [("href", .jstr "https://okta.example/token")])]),
  ("verify", .jobj [("passCode", .jstr "000111"), ("nextPassCode", .jstr "222333")])]

/-- A well-formed `token:software:totp` payload. -/
def totpPayload : JsonValue := .jobj [
  ("factorType", .jstr "token:software:totp"),
  ("id", .jstr "ttp1"),
  ("provider", .jstr "GOOGLE"),
  ("status", .jstr "ACTIVE"),
  ("profile", .jobj [("credentialId", .jstr "cred-totp")]),
  ("_links", .jobj [("verify", .jobj [("href", .jstr "https://okta.example/totp")])])]

/-- A well-formed `token:hardware` payload, with embedded verification
state. -/
def hotpPayload : JsonValue := .jobj [
  ("factorType", .jstr "token:hardware"),
  ("id", .jstr "htp1"),
  ("provider", .jstr "YUBICO"),
  ("status", .jstr "ACTIVE"),
  ("profile", .jobj [("credentialId", .jstr "cred-hotp")]),
  ("_links", .jobj [("verify", .jobj [("href", .jstr "https://okta.example/hotp")])]),
  ("verify", .jobj [("passCode", .jstr "444555")])]

/-- A well-formed `question` payload. -/
def questionPayload : JsonValue := .jobj [
  ("factorType", .jstr "question"),
  ("id", .jstr "qtn1"),
  ("provider", .jstr "OKTA"),
  ("status", .jstr "ACTIVE"),
  ("profile", .jobj [("question", .jstr "disliked_food"),
                     ("questionText", .jstr "What is the food you least liked as a child?"),
                     ("answer", .jstr "okra")]),
  ("_links", .jobj [("verify", .jobj [("href", .jstr "https://okta.example/question")])])]

/-- A well-formed `web` payload. -/
def webPayload : JsonValue := .jobj [
  ("factorType", .jstr "web"),
  ("id", .jstr "web1"),
  ("provider", .jstr "DUO"),
  ("status", .jstr "ACTIVE"),
  ("profile", .jobj [("credentialId", .jstr "cred-web")]),
  ("_links", .jobj [("verify", .jobj [("href", .jstr "https://okta.example/web")])])]

/-- C1 counterexample: on an Sms factor whose link map sends `verify` to an
empty `Multi` collection, `Factor::verify` crashes (the `.unwrap()` panic on
`links.first()`), so it does not return a typed protocol-shape error. -/
theorem verify_crashes_on_empty_multi :
    Factor.verify exSmsFactorEmptyMulti (.sms "t" none) = .crash := rfl

/-- C1 (amended): for every Sms factor whose link map has no `verify` key
or maps it to an empty `Multi` collection, `Factor::verify` panics (the
modelled crash outcome) rather than returning any typed error. -/
theorem verify_missing_or_empty_verify_link_crashes
    (id : String) (prov : FactorProvider) (st : Option FactorStatus)
    (profile : SmsFactorProfile) (links : List (String × OktaLinks))
    (req : FactorVerificationRequest)
    (h : alookup links "verify" = none ∨ alookup links "verify" = some (.multi [])) :
    Factor.verify (.sms id prov st profile links) req = .crash := by
  cases h with
  | inl h1 => simp [Factor.verify, resolveVerifyUrl, h1]
  | inr h1 => simp [Factor.verify, resolveVerifyUrl, h1]

/-- C1 witness: the amended statement instantiated at an Sms factor with an
empty link map. -/
theorem verify_missing_or_empty_verify_link_crashes_witness :
    Factor.verify (.sms "smsid" .okta none ⟨"+15551234567"⟩ []) (.sms "t" none) = .crash :=
  verify_missing_or_empty_verify_link_crashes "smsid" .okta none
    ⟨"+15551234567"⟩ [] (.sms "t" none) (Or.inl rfl)

/-- C2 counterexample: an Sms factor accepts a Question-shaped request and
sends it over the wire, instead of rejecting the mismatched pairing. -/
theorem verify_sends_mismatched_request :
    Factor.verify exSmsFactor (.question "blue") =
      .request "https://okta.example/verify" (.jobj [("answer", .jstr "blue")]) := rfl

/-- C2 (amended): `Factor::verify` performs no request-shape validation at
all: an Sms factor whose verify link resolves sends any request it is
given, of any variant, unchanged. -/
theorem verify_sms_sends_any_request
    (id : String) (prov : FactorProvider) (st : Option FactorStatus)
    (profile : SmsFactorProfile) (links : List (String × OktaLinks))
    (req : FactorVerificationRequest) (url : String)
    (h : resolveVerifyUrl links = some url) :
    Factor.verify (.sms id prov st profile links) req =
      .request url (encodeRequest req) := by
  simp [Factor.verify, h]

/-- C2 witness: the amended statement instantiated with a Totp-shaped
request against an Sms factor. -/
theorem verify_sms_sends_any_request_witness :
    Factor.verify (.sms "smsid" .okta none ⟨"+15551234567"⟩
        [("verify", .single ⟨"https://okta.example/verify"⟩)]) (.totp "123456") =
      .request "https://okta.example/verify" (encodeRequest (.totp "123456")) :=
  verify_sms_sends_any_request "smsid" .okta none ⟨"+15551234567"⟩
    [("verify", .single ⟨"https://okta.example/verify"⟩)] (.totp "123456")
    "https://okta.example/verify" rfl

/-- C3 counterexample: serializing `Call \x7b pass_code: None \x7d` emits the
`passCode` key with a JSON `null` value rather than omitting it. -/
theorem encode_call_none_emits_null :
    encodeRequest (.call none) = .jobj [("passCode", .jnull)] := rfl

/-- C3 (amended): only the Sms variant's optional `pass_code` carries
`skip_serializing_if`, so an Sms request with no pass code omits the
`passCode` key entirely, while a Call request with no pass code emits
`passCode` with a JSON `null` value. -/
theorem encode_optional_field_handling (st : String) :
    objHasKey (encodeRequest (.sms st none)) "passCode" = false ∧
    encodeRequest (.call none) = .jobj [("passCode", .jnull)] :=
  ⟨rfl, rfl⟩

/-- C4: decoding dispatches exactly on the `factorType` discriminator: any
token outside the known set fails decoding (never defaults to a variant),
and each known token decodes a well-formed payload to exactly the matching
variant with all declared fields populated — in particular
`token:software:totp` yields Totp and `token:hardware` yields Hotp. -/
theorem factor_decode_discriminator_exact :
    (∀ (fields : List (String × JsonValue)) (t : String),
        alookup fields "factorType" = some (.jstr t) →
        t ∉ knownFactorTokens →
        decodeFactor (.jobj fields) = none) ∧
    decodeFactor pushPayload = some (.push "opf1" .okta (some .active)
      [("verify", .single ⟨"https://okta.example/push"⟩)]) ∧
    decodeFactor smsPayload = some (.sms "sms1" .okta (some .active)
      ⟨"+15551234567"⟩ [("verify", .single ⟨"https://okta.example/sms"⟩)]) ∧
    decodeFactor callPayload = some (.call "clf1" .okta (some .enrolled)
      ⟨"+15550001111", some "12"⟩ [("verify", .single ⟨"https://okta.example/call"⟩)]) ∧
    decodeFactor tokenPayload = some (.token "tkn1" .rsa (some .active)
      ⟨"cred-token"⟩ [("verify", .single ⟨"https://okta.example/token"⟩)]
      (some ⟨"000111", some "222333"⟩)) ∧
    decodeFactor totpPayload = some (.totp "ttp1" .google (some .active)
      ⟨"cred-totp"⟩ [("verify", .single ⟨"https://okta.example/totp"⟩)]) ∧
    decodeFactor hotpPayload = some (.hotp "htp1" .yubico (some .active)
      ⟨"cred-hotp"⟩ [("verify", .single ⟨"https://okta.example/hotp"⟩)]
      (some ⟨"444555", none⟩)) ∧
    decodeFactor questionPayload = some (.question "qtn1" .okta (some .active)
      ⟨"disliked_food", "What is the food you least liked as a child?", some "okra"⟩
      [("verify", .single ⟨"https://okta.example/question"⟩)]) ∧
    decodeFactor webPayload = some (.web "web1" .duo (some .active)
      ⟨"cred-web"⟩ [("verify", .single ⟨"https://okta.example/web"⟩)]) := by
  refine ⟨?_, rfl, rfl, rfl, rfl, rfl, rfl, rfl, rfl⟩
  intro fields t hlook hmem
  simp only [knownFactorTokens, List.mem_cons, List.not_mem_nil, or_false,
    not_or] at hmem
  obtain ⟨h1, h2, h3, h4, h5, h6, h7, h8⟩ := hmem
  simp [decodeFactor, hlook, decodeFactorTagged, h1, h2, h3, h4, h5, h6, h7, h8]

/-- C4 witness: the unknown-token part of the statement instantiated at the
discriminator `email`. -/
theorem factor_decode_discriminator_exact_witness :
    decodeFactor (.jobj [("factorType", .jstr "email")]) = none :=
  factor_decode_discriminator_exact.1 [("factorType", .jstr "email")] "email"
    rfl (by decide)

/-- C5: for every Factor variant other than Sms and every request,
`Factor::verify` returns the unsupported-method error; in particular the
outcome is never the `request` outcome, so no network call is attempted. -/
theorem verify_non_sms_unsupported (f : Factor) (req : FactorVerificationRequest)
    (h : f.isSms = false) :
    Factor.verify f req = .unsupportedError "Unsupported MFA method" := by
  cases f <;> simp_all [Factor.isSms, Factor.verify]

/-- C5 witness: the statement instantiated at a Push factor. -/
theorem verify_non_sms_unsupported_witness :
    Factor.verify (.push "opf1" .okta none []) (.totp "123456") =
      .unsupportedError "Unsupported MFA method" :=
  verify_non_sms_unsupported (.push "opf1" .okta none []) (.totp "123456") rfl

/-- C6: resolving the `verify` relation yields the href of a `Single` link,
and the href of the first entry of a non-empty `Multi` collection. -/
theorem resolve_verify_single_and_multi_first :
    (∀ (links : List (String × OktaLinks)) (u : Link),
        alookup links "verify" = some (.single u) →
        resolveVerifyUrl links = some u.href) ∧
    (∀ (links : List (String × OktaLinks)) (u : Link) (rest : List Link),
        alookup links "verify" = some (.multi (u :: rest)) →
        resolveVerifyUrl links = some u.href) := by
  constructor
  · intro links u h
    simp [resolveVerifyUrl, h]
  · intro links u rest h
    simp [resolveVerifyUrl, h]

/-- C6 witness: both parts instantiated at concrete link maps. -/
theorem resolve_verify_single_and_multi_first_witness :
    resolveVerifyUrl [("verify", .single ⟨"https://a.example"⟩)] = some "https://a.example" ∧
    resolveVerifyUrl [("verify", .multi [⟨"https://b.example"⟩, ⟨"https://c.example"⟩])] =
      some "https://b.example" :=
  ⟨resolve_verify_single_and_multi_first.1
      [("verify", .single ⟨"https://a.example"⟩)] ⟨"https://a.example"⟩ rfl,
   resolve_verify_single_and_multi_first.2
      [("verify", .multi [⟨"https://b.example"⟩, ⟨"https://c.example"⟩])]
      ⟨"https://b.example"⟩ [⟨"https://c.example"⟩] rfl⟩

/-- C7 counterexample: the Display text of a Question factor renders the
question code field, not the human-readable question text. -/
theorem display_question_counterexample :
    Factor.display exQuestionFactor ≠
      "Question: What is the food you least liked as a child?" ∧
    Factor.display exQuestionFactor = "Question: disliked_food" :=
  ⟨by decide, rfl⟩

/-- C7 (amended): for every Question factor the Display summary renders the
question code (the `question` profile field), in the form
`Question: \x7bquestion\x7d`. -/
theorem display_question_renders_question_code
    (id : String) (prov : FactorProvider) (st : Option FactorStatus)
    (profile : QuestionFactorProfile) (links : List (String × OktaLinks)) :
    Factor.display (.question id prov st profile links) =
      "Question: " ++ profile.question := rfl

/-- C8: every Sms factor whose profile phone number is `+15551234567`
renders exactly `Okta SMS to +15551234567`. -/
theorem display_sms_renders_phone
    (id : String) (prov : FactorProvider) (st : Option FactorStatus)
    (links : List (String × OktaLinks)) :
    Factor.display (.sms id prov st ⟨"+15551234567"⟩ links) =
      "Okta SMS to +15551234567" := rfl

/-- Display is invariant under scrubbing of secret fields. -/
theorem display_scrub (f : Factor) : (Factor.scrubSecrets f).display = f.display := by
  cases f <;> rfl

/-- C9: Display output carries no secret material: two factors that differ
only in answer, embedded verification pass codes, or credential identifiers
(that is, factors identified by `scrubSecrets`) render identical Display
text. -/
theorem display_ignores_secret_fields (f g : Factor)
    (h : f.scrubSecrets = g.scrubSecrets) : f.display = g.display := by
  rw [← display_scrub f, ← display_scrub g, h]

/-- C9 witness: two Question factors differing only in the stored answer
render the same text. -/
theorem display_ignores_secret_fields_witness :
    Factor.display (.question "qid" .okta none ⟨"code", "text", some "secretA"⟩ []) =
      Factor.display (.question "qid" .okta none ⟨"code", "text", some "secretB"⟩ []) :=
  display_ignores_secret_fields
    (.question "qid" .okta none ⟨"code", "text", some "secretA"⟩ [])
    (.question "qid" .okta none ⟨"code", "text", some "secretB"⟩ []) rfl

/-- C10: `FactorVerificationRequest` serializes untagged (no discriminator
key appears in any encoding), and shape-directed first-match decoding sends
the encoding of `Totp \x7b pass_code: "123456" \x7d` to the `Call` variant,
so decode after encode is not the identity on the request union. -/
theorem untagged_roundtrip_not_identity :
    (∀ req : FactorVerificationRequest,
        objHasKey (encodeRequest req) "factorType" = false) ∧
    decodeRequest (encodeRequest (.totp "123456")) = some (.call (some "123456")) ∧
    decodeRequest (encodeRequest (.totp "123456")) ≠ some (.totp "123456") := by
  refine ⟨?_, rfl, by decide⟩
  intro req
  cases req with
  | question a => rfl
  | sms st pc => cases pc <;> rfl
  | call pc => cases pc <;> rfl
  | totp p => rfl
  | token p => rfl

end Crowbar
